import Mathlib

/-!
Verification of the Office Bridge access-control core
(`backend/app/core/permissions.py` and `backend/app/core/security.py`).

The Python code is shallowly embedded: the `Permission` string enum becomes a
Lean inductive with a `value` projection, the module-level dicts
`ROLE_PERMISSIONS` and `ROLE_HIERARCHY` become association lists queried with
`List.lookup` (mirroring `dict.get(key, default)` via `Option.getD`), the
`project_users` membership table becomes an explicit list of
(user_id, project_id) rows, and functions that raise `HTTPException` return
`Except HTTPException`.
-/

namespace OfficeBridge

/-- Embeds the `Permission(str, Enum)` class of `permissions.py`:
all available permissions in the system. -/
inductive Permission where
  | PROJECT_VIEW
  | PROJECT_CREATE
  | PROJECT_UPDATE
  | PROJECT_DELETE
  | PROJECT_MANAGE_MEMBERS
  | TASK_VIEW
  | TASK_CREATE
  | TASK_ASSIGN
  | TASK_UPDATE
  | TASK_DELETE
  | TASK_ACKNOWLEDGE
  | TASK_COMPLETE
  | DAILY_REPORT_VIEW
  | DAILY_REPORT_CREATE
  | DAILY_REPORT_UPDATE
  | DAILY_REPORT_DELETE
  | PHOTO_VIEW
  | PHOTO_CREATE
  | PHOTO_UPDATE
  | PHOTO_DELETE
  | DOCUMENT_VIEW
  | DOCUMENT_CREATE
  | DOCUMENT_UPDATE
  | DOCUMENT_DELETE
  | DOCUMENT_MANAGE_REVISIONS
  | RFI_VIEW
  | RFI_CREATE
  | RFI_UPDATE
  | RFI_ANSWER
  | RFI_DELETE
  | CHANGE_VIEW
  | CHANGE_CREATE
  | CHANGE_PRICE
  | CHANGE_APPROVE
  | CHANGE_DELETE
  | PUNCH_VIEW
  | PUNCH_CREATE
  | PUNCH_UPDATE
  | PUNCH_VERIFY
  | PUNCH_DELETE
  | DELIVERY_VIEW
  | DELIVERY_CREATE
  | DELIVERY_UPDATE
  | DELIVERY_CONFIRM
  | DELIVERY_DELETE
  | CONSTRAINT_VIEW
  | CONSTRAINT_CREATE
  | CONSTRAINT_UPDATE
  | CONSTRAINT_RESOLVE
  | CONSTRAINT_DELETE
  | DECISION_VIEW
  | DECISION_CREATE
  | TIMECARD_VIEW_OWN
  | TIMECARD_VIEW_ALL
  | TIMECARD_CREATE
  | TIMECARD_UPDATE_OWN
  | TIMECARD_APPROVE
  | TIMECARD_DELETE
  | COST_CODE_VIEW
  | COST_CODE_CREATE
  | COST_CODE_UPDATE
  | COST_CODE_DELETE
  | SERVICE_VIEW
  | SERVICE_CREATE
  | SERVICE_ASSIGN
  | SERVICE_UPDATE
  | SERVICE_COMPLETE
  | SERVICE_DELETE
  | ADMIN_VIEW_ALL_PROJECTS
  | ADMIN_MANAGE_USERS
  | ADMIN_SYSTEM_SETTINGS
deriving DecidableEq, Repr, Fintype

/-- The string value of each enum member, exactly as in the source. -/
def Permission.value : Permission → String
  | .PROJECT_VIEW => "project:view"
  | .PROJECT_CREATE => "project:create"
  | .PROJECT_UPDATE => "project:update"
  | .PROJECT_DELETE => "project:delete"
  | .PROJECT_MANAGE_MEMBERS => "project:manage_members"
  | .TASK_VIEW => "task:view"
  | .TASK_CREATE => "task:create"
  | .TASK_ASSIGN => "task:assign"
  | .TASK_UPDATE => "task:update"
  | .TASK_DELETE => "task:delete"
  | .TASK_ACKNOWLEDGE => "task:acknowledge"
  | .TASK_COMPLETE => "task:complete"
  | .DAILY_REPORT_VIEW => "daily_report:view"
  | .DAILY_REPORT_CREATE => "daily_report:create"
  | .DAILY_REPORT_UPDATE => "daily_report:update"
  | .DAILY_REPORT_DELETE => "daily_report:delete"
  | .PHOTO_VIEW => "photo:view"
  | .PHOTO_CREATE => "photo:create"
  | .PHOTO_UPDATE => "photo:update"
  | .PHOTO_DELETE => "photo:delete"
  | .DOCUMENT_VIEW => "document:view"
  | .DOCUMENT_CREATE => "document:create"
  | .DOCUMENT_UPDATE => "document:update"
  | .DOCUMENT_DELETE => "document:delete"
  | .DOCUMENT_MANAGE_REVISIONS => "document:manage_revisions"
  | .RFI_VIEW => "rfi:view"
  | .RFI_CREATE => "rfi:create"
  | .RFI_UPDATE => "rfi:update"
  | .RFI_ANSWER => "rfi:answer"
  | .RFI_DELETE => "rfi:delete"
  | .CHANGE_VIEW => "change:view"
  | .CHANGE_CREATE => "change:create"
  | .CHANGE_PRICE => "change:price"
  | .CHANGE_APPROVE => "change:approve"
  | .CHANGE_DELETE => "change:delete"
  | .PUNCH_VIEW => "punch:view"
  | .PUNCH_CREATE => "punch:create"
  | .PUNCH_UPDATE => "punch:update"
  | .PUNCH_VERIFY => "punch:verify"
  | .PUNCH_DELETE => "punch:delete"
  | .DELIVERY_VIEW => "delivery:view"
  | .DELIVERY_CREATE => "delivery:create"
  | .DELIVERY_UPDATE => "delivery:update"
  | .DELIVERY_CONFIRM => "delivery:confirm"
  | .DELIVERY_DELETE => "delivery:delete"
  | .CONSTRAINT_VIEW => "constraint:view"
  | .CONSTRAINT_CREATE => "constraint:create"
  | .CONSTRAINT_UPDATE => "constraint:update"
  | .CONSTRAINT_RESOLVE => "constraint:resolve"
  | .CONSTRAINT_DELETE => "constraint:delete"
  | .DECISION_VIEW => "decision:view"
  | .DECISION_CREATE => "decision:create"
  | .TIMECARD_VIEW_OWN => "timecard:view_own"
  | .TIMECARD_VIEW_ALL => "timecard:view_all"
  | .TIMECARD_CREATE => "timecard:create"
  | .TIMECARD_UPDATE_OWN => "timecard:update_own"
  | .TIMECARD_APPROVE => "timecard:approve"
  | .TIMECARD_DELETE => "timecard:delete"
  | .COST_CODE_VIEW => "cost_code:view"
  | .COST_CODE_CREATE => "cost_code:create"
  | .COST_CODE_UPDATE => "cost_code:update"
  | .COST_CODE_DELETE => "cost_code:delete"
  | .SERVICE_VIEW => "service:view"
  | .SERVICE_CREATE => "service:create"
  | .SERVICE_ASSIGN => "service:assign"
  | .SERVICE_UPDATE => "service:update"
  | .SERVICE_COMPLETE => "service:complete"
  | .SERVICE_DELETE => "service:delete"
  | .ADMIN_VIEW_ALL_PROJECTS => "admin:view_all_projects"
  | .ADMIN_MANAGE_USERS => "admin:manage_users"
  | .ADMIN_SYSTEM_SETTINGS => "admin:system_settings"

/-- Python's `str.startswith(pre)`: `pre` is a prefix of `s`.
Implemented over the character list so that the kernel can evaluate it. -/
def strStartsWith (s pre : String) : Bool :=
  pre.data.isPrefixOf s.data

/-- `FULL_ACCESS_PERMISSIONS = {p for p in Permission if not p.value.startswith("admin:")}` -/
def FULL_ACCESS_PERMISSIONS : Finset Permission :=
  Finset.univ.filter fun p => ¬ strStartsWith p.value "admin:"

/-- `ADMIN_PERMISSIONS = {p for p in Permission}` -/
def ADMIN_PERMISSIONS : Finset Permission := Finset.univ

/-- The `ROLE_PERMISSIONS` dict of `permissions.py`, as an association list
in the source's insertion order. -/
def ROLE_PERMISSIONS : List (String × Finset Permission) :=
  [("admin", ADMIN_PERMISSIONS),
   ("project_manager", FULL_ACCESS_PERMISSIONS),
   ("superintendent", FULL_ACCESS_PERMISSIONS),
   ("foreman",
     {Permission.PROJECT_VIEW,
      Permission.TASK_VIEW, Permission.TASK_CREATE, Permission.TASK_ASSIGN,
      Permission.TASK_UPDATE, Permission.TASK_ACKNOWLEDGE, Permission.TASK_COMPLETE,
      Permission.DAILY_REPORT_VIEW, Permission.DAILY_REPORT_CREATE, Permission.DAILY_REPORT_UPDATE,
      Permission.PHOTO_VIEW, Permission.PHOTO_CREATE, Permission.PHOTO_UPDATE,
      Permission.DOCUMENT_VIEW,
      Permission.RFI_VIEW, Permission.RFI_CREATE, Permission.RFI_UPDATE,
      Permission.CHANGE_VIEW, Permission.CHANGE_CREATE,
      Permission.PUNCH_VIEW, Permission.PUNCH_CREATE, Permission.PUNCH_UPDATE,
      Permission.DELIVERY_VIEW, Permission.DELIVERY_CONFIRM,
      Permission.CONSTRAINT_VIEW, Permission.CONSTRAINT_CREATE, Permission.CONSTRAINT_UPDATE,
      Permission.DECISION_VIEW, Permission.DECISION_CREATE,
      Permission.TIMECARD_VIEW_OWN, Permission.TIMECARD_VIEW_ALL,
      Permission.TIMECARD_CREATE, Permission.TIMECARD_UPDATE_OWN,
      Permission.COST_CODE_VIEW,
      Permission.SERVICE_VIEW}),
   ("project_engineer",
     {Permission.PROJECT_VIEW,
      Permission.TASK_VIEW, Permission.TASK_CREATE, Permission.TASK_ASSIGN,
      Permission.TASK_UPDATE, Permission.TASK_ACKNOWLEDGE, Permission.TASK_COMPLETE,
      Permission.DAILY_REPORT_VIEW,
      Permission.PHOTO_VIEW, Permission.PHOTO_CREATE, Permission.PHOTO_UPDATE,
      Permission.DOCUMENT_VIEW, Permission.DOCUMENT_CREATE,
      Permission.DOCUMENT_UPDATE, Permission.DOCUMENT_MANAGE_REVISIONS,
      Permission.RFI_VIEW, Permission.RFI_CREATE, Permission.RFI_UPDATE, Permission.RFI_ANSWER,
      Permission.CHANGE_VIEW, Permission.CHANGE_CREATE, Permission.CHANGE_PRICE,
      Permission.PUNCH_VIEW, Permission.PUNCH_CREATE, Permission.PUNCH_UPDATE,
      Permission.DELIVERY_VIEW,
      Permission.CONSTRAINT_VIEW, Permission.CONSTRAINT_CREATE,
      Permission.CONSTRAINT_UPDATE, Permission.CONSTRAINT_RESOLVE,
      Permission.DECISION_VIEW, Permission.DECISION_CREATE,
      Permission.TIMECARD_VIEW_OWN, Permission.TIMECARD_CREATE, Permission.TIMECARD_UPDATE_OWN,
      Permission.COST_CODE_VIEW,
      Permission.SERVICE_VIEW}),
   ("accounting",
     {Permission.PROJECT_VIEW,
      Permission.TASK_VIEW,
      Permission.DAILY_REPORT_VIEW,
      Permission.PHOTO_VIEW,
      Permission.DOCUMENT_VIEW,
      Permission.RFI_VIEW,
      Permission.CHANGE_VIEW, Permission.CHANGE_PRICE, Permission.CHANGE_APPROVE,
      Permission.PUNCH_VIEW,
      Permission.DELIVERY_VIEW,
      Permission.CONSTRAINT_VIEW,
      Permission.DECISION_VIEW,
      Permission.TIMECARD_VIEW_OWN, Permission.TIMECARD_VIEW_ALL,
      Permission.TIMECARD_CREATE, Permission.TIMECARD_UPDATE_OWN, Permission.TIMECARD_APPROVE,
      Permission.COST_CODE_VIEW, Permission.COST_CODE_CREATE, Permission.COST_CODE_UPDATE,
      Permission.SERVICE_VIEW}),
   ("logistics",
     {Permission.PROJECT_VIEW,
      Permission.TASK_VIEW, Permission.TASK_ACKNOWLEDGE, Permission.TASK_COMPLETE,
      Permission.DAILY_REPORT_VIEW,
      Permission.PHOTO_VIEW, Permission.PHOTO_CREATE,
      Permission.DOCUMENT_VIEW,
      Permission.RFI_VIEW,
      Permission.CHANGE_VIEW,
      Permission.PUNCH_VIEW,
      Permission.DELIVERY_VIEW, Permission.DELIVERY_CREATE,
      Permission.DELIVERY_UPDATE, Permission.DELIVERY_CONFIRM,
      Permission.CONSTRAINT_VIEW, Permission.CONSTRAINT_CREATE,
      Permission.CONSTRAINT_UPDATE, Permission.CONSTRAINT_RESOLVE,
      Permission.DECISION_VIEW,
      Permission.TIMECARD_VIEW_OWN, Permission.TIMECARD_CREATE, Permission.TIMECARD_UPDATE_OWN,
      Permission.COST_CODE_VIEW,
      Permission.SERVICE_VIEW}),
   ("document_controller",
     {Permission.PROJECT_VIEW,
      Permission.TASK_VIEW, Permission.TASK_ACKNOWLEDGE, Permission.TASK_COMPLETE,
      Permission.DAILY_REPORT_VIEW,
      Permission.PHOTO_VIEW,
      Permission.DOCUMENT_VIEW, Permission.DOCUMENT_CREATE,
      Permission.DOCUMENT_UPDATE, Permission.DOCUMENT_DELETE, Permission.DOCUMENT_MANAGE_REVISIONS,
      Permission.RFI_VIEW,
      Permission.CHANGE_VIEW,
      Permission.PUNCH_VIEW,
      Permission.DELIVERY_VIEW,
      Permission.CONSTRAINT_VIEW,
      Permission.DECISION_VIEW,
      Permission.TIMECARD_VIEW_OWN, Permission.TIMECARD_CREATE, Permission.TIMECARD_UPDATE_OWN,
      Permission.COST_CODE_VIEW,
      Permission.SERVICE_VIEW}),
   ("service_dispatcher",
     {Permission.PROJECT_VIEW,
      Permission.TASK_VIEW,
      Permission.DAILY_REPORT_VIEW,
      Permission.PHOTO_VIEW, Permission.PHOTO_CREATE,
      Permission.DOCUMENT_VIEW,
      Permission.RFI_VIEW,
      Permission.CHANGE_VIEW,
      Permission.PUNCH_VIEW,
      Permission.DELIVERY_VIEW,
      Permission.CONSTRAINT_VIEW,
      Permission.DECISION_VIEW,
      Permission.TIMECARD_VIEW_OWN, Permission.TIMECARD_CREATE, Permission.TIMECARD_UPDATE_OWN,
      Permission.COST_CODE_VIEW,
      Permission.SERVICE_VIEW, Permission.SERVICE_CREATE,
      Permission.SERVICE_ASSIGN, Permission.SERVICE_UPDATE, Permission.SERVICE_COMPLETE}),
   ("field_worker",
     {Permission.PROJECT_VIEW,
      Permission.TASK_VIEW, Permission.TASK_ACKNOWLEDGE, Permission.TASK_COMPLETE,
      Permission.DAILY_REPORT_VIEW,
      Permission.PHOTO_VIEW, Permission.PHOTO_CREATE,
      Permission.DOCUMENT_VIEW,
      Permission.RFI_VIEW, Permission.RFI_CREATE,
      Permission.CHANGE_VIEW, Permission.CHANGE_CREATE,
      Permission.PUNCH_VIEW, Permission.PUNCH_CREATE,
      Permission.DELIVERY_VIEW, Permission.DELIVERY_CONFIRM,
      Permission.CONSTRAINT_VIEW,
      Permission.DECISION_VIEW,
      Permission.TIMECARD_VIEW_OWN, Permission.TIMECARD_CREATE, Permission.TIMECARD_UPDATE_OWN,
      Permission.COST_CODE_VIEW,
      Permission.SERVICE_VIEW})]

/-- `get_user_permissions(role) = ROLE_PERMISSIONS.get(role, set())` -/
def get_user_permissions (role : String) : Finset Permission :=
  (ROLE_PERMISSIONS.lookup role).getD ∅

/-- `has_permission(role, permission) = permission in get_user_permissions(role)` -/
def has_permission (role : String) (permission : Permission) : Bool :=
  decide (permission ∈ get_user_permissions role)

/-- `has_any_permission(role, permissions) = any(p in user_perms for p in permissions)` -/
def has_any_permission (role : String) (permissions : List Permission) : Bool :=
  let user_perms := get_user_permissions role
  permissions.any fun p => decide (p ∈ user_perms)

/-- `has_all_permissions(role, permissions) = all(p in user_perms for p in permissions)` -/
def has_all_permissions (role : String) (permissions : List Permission) : Bool :=
  let user_perms := get_user_permissions role
  permissions.all fun p => decide (p ∈ user_perms)

/-- `is_admin(role) = (role == "admin")` -/
def is_admin (role : String) : Bool :=
  role == "admin"

/-- `is_manager_level(role) = role in ["admin", "project_manager", "superintendent"]` -/
def is_manager_level (role : String) : Bool :=
  ["admin", "project_manager", "superintendent"].contains role

/-- `fastapi.HTTPException`: the error raised by the guards. The 401 raised by
`get_current_user` carries a `WWW-Authenticate` header; the 403s carry none. -/
structure HTTPException where
  status_code : Nat
  detail : String
  headers : List (String × String)
deriving DecidableEq, Repr

/-- A row of the `project_users` association table: (user_id, project_id). -/
abbrev MembershipRow := Int × Int

/-- The database state visible to `check_project_access`: the rows of the
`project_users` relation. -/
abbrev Db := List MembershipRow

/-- `check_project_access(user_id, project_id, user_role, db)`:
admins bypass the membership check; otherwise the result is whether a
`project_users` row with this (user_id, project_id) exists
(`result.first() is not None` on the filtered select). -/
def check_project_access (user_id project_id : Int) (user_role : String) (db : Db) : Bool :=
  if is_admin user_role then
    true
  else
    db.any fun row => row.1 == user_id && row.2 == project_id

/-- The decoded JWT payload dict: `current_user.get("sub")` and
`current_user.get("role")` are the only keys the core reads, so the dict is
embedded as a record of those two optional fields. -/
structure Payload where
  sub : Option Int
  role : Option String
deriving DecidableEq, Repr

/-- `verify_project_access(project_id, current_user, db, required_permission)`:
permission check first (403 naming the permission), then project access
(403 "You don't have access to this project"); `Except.ok` when nothing raises.
`user_id = int(current_user.get("sub", 0))`, `user_role = current_user.get("role", "")`. -/
def verify_project_access (project_id : Int) (current_user : Payload) (db : Db)
    (required_permission : Option Permission) : Except HTTPException Unit :=
  let user_id := current_user.sub.getD 0
  let user_role := current_user.role.getD ""
  match required_permission with
  | some rp =>
    if ¬ has_permission user_role rp then
      Except.error ⟨403, "Permission denied: " ++ rp.value, []⟩
    else if check_project_access user_id project_id user_role db then
      Except.ok ()
    else
      Except.error ⟨403, "You don't have access to this project", []⟩
  | none =>
    if check_project_access user_id project_id user_role db then
      Except.ok ()
    else
      Except.error ⟨403, "You don't have access to this project", []⟩

/-- `is_owner(user_id, resource_owner_id) = (user_id == resource_owner_id)` -/
def is_owner (user_id resource_owner_id : Int) : Bool :=
  user_id == resource_owner_id

/-- `can_edit_resource(user_id, resource_owner_id, user_role, edit_permission,
edit_own_permission)`: general edit permission allows; otherwise ownership plus
the edit-own permission (when one is supplied) allows; otherwise deny.
`Permission` values are non-empty strings, so Python's truthiness test
`if edit_own_permission` is exactly the `some`/`none` distinction. -/
def can_edit_resource (user_id resource_owner_id : Int) (user_role : String)
    (edit_permission : Permission) (edit_own_permission : Option Permission) : Bool :=
  if has_permission user_role edit_permission then
    true
  else
    match edit_own_permission with
    | some own_p =>
      if is_owner user_id resource_owner_id then
        has_permission user_role own_p
      else
        false
    | none => false

/-- The `ROLE_HIERARCHY` dict of `permissions.py`. -/
def ROLE_HIERARCHY : List (String × Int) :=
  [("admin", 100),
   ("project_manager", 90),
   ("superintendent", 85),
   ("foreman", 70),
   ("project_engineer", 70),
   ("accounting", 60),
   ("logistics", 50),
   ("document_controller", 50),
   ("service_dispatcher", 50),
   ("field_worker", 10)]

/-- `ROLE_HIERARCHY.get(role, 0)`, the integer rank used by `can_manage_user`. -/
def hierarchy_level (role : String) : Int :=
  (ROLE_HIERARCHY.lookup role).getD 0

/-- `can_manage_user(manager_role, target_role)`: strict rank comparison. -/
def can_manage_user (manager_role target_role : String) : Bool :=
  decide (hierarchy_level manager_role > hierarchy_level target_role)

/-- The fixed `credentials_exception` of `security.get_current_user`. -/
def credentials_exception : HTTPException :=
  ⟨401, "Could not validate credentials", [("WWW-Authenticate", "Bearer")]⟩

/-- `get_current_user(credentials)` of `security.py`. `credentials` is `none`
when no bearer token was presented (`HTTPBearer(auto_error=False)`).
`jwtDecode` abstracts `decode_token`'s call to the external `jose.jwt.decode`:
it returns `none` exactly when that call raises `JWTError` — that is, on a
malformed/unverifiable signature or an expired token — and otherwise the
decoded claims. -/
def get_current_user (jwtDecode : String → Option Payload)
    (credentials : Option String) : Except HTTPException Payload :=
  match credentials with
  | none => Except.error credentials_exception
  | some token =>
    match jwtDecode token with
    | none => Except.error credentials_exception
    | some payload =>
      match payload.sub with
      | none => Except.error credentials_exception
      | some _ => Except.ok payload

/-!  Theorems.  -/

/-- `dict.get` misses every key that is not in the dict: association-list form. -/
theorem lookup_eq_none_of_not_mem {β : Type} (a : String) (l : List (String × β))
    (h : a ∉ l.map Prod.fst) : l.lookup a = none := by
  induction l with
  | nil => rfl
  | cons hd tl ih =>
    simp only [List.map_cons, List.mem_cons, not_or] at h
    obtain ⟨h1, h2⟩ := h
    simp only [List.lookup]
    rw [beq_eq_false_iff_ne.mpr h1]
    exact ih h2

/-- C1: administrator superiority — any permission held by any role is held by
"admin"; every role's set in ROLE_PERMISSIONS is a subset of ADMIN_PERMISSIONS;
and the union of all role permission-sets is the full permission universe. -/
theorem admin_superiority :
    (∀ (R : String) (P : Permission),
        has_permission R P = true → has_permission "admin" P = true) ∧
    (∀ pr ∈ ROLE_PERMISSIONS, pr.2 ⊆ ADMIN_PERMISSIONS) ∧
    ROLE_PERMISSIONS.foldr (fun pr acc => pr.2 ∪ acc) ∅ = Finset.univ := by
  have hadmin : get_user_permissions "admin" = ADMIN_PERMISSIONS := rfl
  refine ⟨?_, ?_, ?_⟩
  · intro R P _
    simp [has_permission, hadmin, ADMIN_PERMISSIONS]
  · intro pr _
    exact fun p _ => Finset.mem_univ p
  · apply Finset.eq_univ_of_forall
    intro p
    simp only [ROLE_PERMISSIONS, List.foldr_cons, List.foldr_nil, Finset.mem_union,
      ADMIN_PERMISSIONS, Finset.mem_univ, true_or]

/-- Witness for C1 at the concrete role "field_worker" and permission
task:view, and at the first entry of ROLE_PERMISSIONS. -/
theorem admin_superiority_witness :
    has_permission "admin" Permission.TASK_VIEW = true ∧
    ("admin", ADMIN_PERMISSIONS).2 ⊆ ADMIN_PERMISSIONS :=
  ⟨admin_superiority.1 "field_worker" Permission.TASK_VIEW (by decide),
   admin_superiority.2.1 ("admin", ADMIN_PERMISSIONS)
     (by unfold ROLE_PERMISSIONS; exact List.mem_cons_self _ _)⟩

/-- C2 counterexample: against the unknown role, `has_all_permissions` on the
empty permission list is true (vacuously), not false as the claim states. -/
theorem unknown_role_has_all_empty :
    has_all_permissions "nonexistent-role" [] = true := by decide

/-- C2 (amended): for a role not among the keys of ROLE_PERMISSIONS,
get_user_permissions is the empty set, has_permission is false for every
permission, has_any_permission is false for every list, and
has_all_permissions is false for every NON-EMPTY list. -/
theorem fail_closed_unknown_role (role : String)
    (h : role ∉ ROLE_PERMISSIONS.map Prod.fst) :
    get_user_permissions role = ∅ ∧
    (∀ p : Permission, has_permission role p = false) ∧
    (∀ ps : List Permission, has_any_permission role ps = false) ∧
    (∀ ps : List Permission, ps ≠ [] → has_all_permissions role ps = false) := by
  have hempty : get_user_permissions role = ∅ := by
    unfold get_user_permissions
    rw [lookup_eq_none_of_not_mem role ROLE_PERMISSIONS h]
    rfl
  refine ⟨hempty, ?_, ?_, ?_⟩
  · intro p
    simp [has_permission, hempty]
  · intro ps
    simp [has_any_permission, hempty]
  · intro ps hne
    cases ps with
    | nil => exact absurd rfl hne
    | cons p ps => simp [has_all_permissions, hempty]

/-- Witness for C2 (amended) at the role "nonexistent-role". -/
theorem fail_closed_unknown_role_witness :
    get_user_permissions "nonexistent-role" = ∅ ∧
    has_permission "nonexistent-role" Permission.PROJECT_VIEW = false ∧
    has_any_permission "nonexistent-role" [Permission.PROJECT_VIEW] = false ∧
    has_all_permissions "nonexistent-role" [Permission.PROJECT_VIEW] = false := by
  obtain ⟨h1, h2, h3, h4⟩ := fail_closed_unknown_role "nonexistent-role" (by decide)
  exact ⟨h1, h2 _, h3 _, h4 _ (by decide)⟩

/-- C3: the administrator role bypasses the membership check —
check_project_access is true for every user id, project id and database
state when the role is "admin". -/
theorem admin_membership_bypass (user_id project_id : Int) (db : Db) :
    check_project_access user_id project_id "admin" db = true := rfl

/-- C10: for every role string, has_all_permissions on the empty list is
vacuously true and has_any_permission on the empty list is false. -/
theorem empty_permission_list (role : String) :
    has_all_permissions role [] = true ∧ has_any_permission role [] = false :=
  ⟨rfl, rfl⟩

/-- C4: for a non-administrator role, check_project_access is true exactly when
a (user, project) membership row exists, and removing every such row from the
relation makes access false again. -/
theorem nonadmin_membership_exact (role : String) (u p : Int) (db : Db)
    (h : is_admin role = false) :
    (check_project_access u p role db = true ↔ (u, p) ∈ db) ∧
    check_project_access u p role
      (((u, p) :: db).filter fun row => row ≠ (u, p)) = false := by
  have hchk : ∀ d : Db, check_project_access u p role d =
      d.any fun row => row.1 == u && row.2 == p := by
    intro d
    simp [check_project_access, h]
  constructor
  · rw [hchk db]
    simp only [List.any_eq_true, Bool.and_eq_true, beq_iff_eq]
    constructor
    · rintro ⟨⟨a, b⟩, hmem, rfl, rfl⟩
      exact hmem
    · intro hmem
      exact ⟨(u, p), hmem, rfl, rfl⟩
  · rw [hchk]
    rw [List.any_eq_false]
    intro row hrow
    rw [List.mem_filter] at hrow
    obtain ⟨_, hne⟩ := hrow
    simp only [decide_eq_true_eq] at hne
    simp only [Bool.and_eq_true, beq_iff_eq, not_and]
    intro h1 h2
    exact hne (Prod.ext h1 h2)

/-- Witness for C4 at role "foreman", user 1, project 7, membership [(1, 7)]. -/
theorem nonadmin_membership_exact_witness :
    (check_project_access 1 7 "foreman" [((1 : Int), (7 : Int))] = true ↔
      ((1 : Int), (7 : Int)) ∈ [((1 : Int), (7 : Int))]) ∧
    check_project_access 1 7 "foreman"
      ((((1 : Int), (7 : Int)) :: [((1 : Int), (7 : Int))]).filter
        fun row => row ≠ (1, 7)) = false :=
  nonadmin_membership_exact "foreman" 1 7 [(1, 7)] (by decide)

/-- C5: when the caller's role lacks the required permission,
verify_project_access fails with the permission-denied error, and the outcome
is the same for any two membership states — the permission check comes first
and the database is never consulted. -/
theorem permission_check_precedes_membership (project_id : Int)
    (current_user : Payload) (db db2 : Db) (rp : Permission)
    (h : has_permission (current_user.role.getD "") rp = false) :
    verify_project_access project_id current_user db (some rp) =
      Except.error ⟨403, "Permission denied: " ++ rp.value, []⟩ ∧
    verify_project_access project_id current_user db (some rp) =
      verify_project_access project_id current_user db2 (some rp) := by
  have e : ∀ d : Db, verify_project_access project_id current_user d (some rp) =
      Except.error ⟨403, "Permission denied: " ++ rp.value, []⟩ := by
    intro d
    simp [verify_project_access, h]
  exact ⟨e db, (e db).trans (e db2).symm⟩

/-- Witness for C5: "accounting" lacks task:create, so the guard fails with
the permission-denied error whether or not a membership row for project 5
exists. -/
theorem permission_check_precedes_membership_witness :
    verify_project_access 5 ⟨some 1, some "accounting"⟩ []
      (some Permission.TASK_CREATE) =
      Except.error ⟨403, "Permission denied: " ++ Permission.TASK_CREATE.value, []⟩ ∧
    verify_project_access 5 ⟨some 1, some "accounting"⟩ []
      (some Permission.TASK_CREATE) =
      verify_project_access 5 ⟨some 1, some "accounting"⟩ [(1, 5)]
        (some Permission.TASK_CREATE) :=
  permission_check_precedes_membership 5 ⟨some 1, some "accounting"⟩ [] [(1, 5)]
    Permission.TASK_CREATE (by decide)

/-- C6: ownership override — for the owner, holding the edit-own permission
suffices even without the general edit permission, and holding neither denies;
for a non-owner the result is exactly the general edit permission. -/
theorem ownership_override (u o : Int) (role : String) (ep eop : Permission) :
    (has_permission role eop = true →
      can_edit_resource u u role ep (some eop) = true) ∧
    (has_permission role ep = false → has_permission role eop = false →
      can_edit_resource u u role ep (some eop) = false) ∧
    (u ≠ o →
      can_edit_resource u o role ep (some eop) = has_permission role ep) := by
  refine ⟨?_, ?_, ?_⟩
  · intro h
    cases hep : has_permission role ep with
    | true => simp [can_edit_resource, hep]
    | false => simp [can_edit_resource, hep, is_owner, h]
  · intro h1 h2
    simp [can_edit_resource, h1, is_owner, h2]
  · intro hne
    cases hep : has_permission role ep with
    | true => simp [can_edit_resource, hep]
    | false => simp [can_edit_resource, hep, is_owner, beq_eq_false_iff_ne.mpr hne]

/-- Witness for C6 at role "field_worker", which holds timecard:update_own but
not timecard:approve, and holds neither task:delete nor task:assign. -/
theorem ownership_override_witness :
    can_edit_resource 1 1 "field_worker" Permission.TIMECARD_APPROVE
      (some Permission.TIMECARD_UPDATE_OWN) = true ∧
    can_edit_resource 1 1 "field_worker" Permission.TASK_DELETE
      (some Permission.TASK_ASSIGN) = false ∧
    can_edit_resource 1 2 "field_worker" Permission.TIMECARD_APPROVE
      (some Permission.TIMECARD_UPDATE_OWN) =
      has_permission "field_worker" Permission.TIMECARD_APPROVE :=
  ⟨(ownership_override 1 1 "field_worker" Permission.TIMECARD_APPROVE
      Permission.TIMECARD_UPDATE_OWN).1 (by decide),
   (ownership_override 1 1 "field_worker" Permission.TASK_DELETE
      Permission.TASK_ASSIGN).2.1 (by decide) (by decide),
   (ownership_override 1 2 "field_worker" Permission.TIMECARD_APPROVE
      Permission.TIMECARD_UPDATE_OWN).2.2 (by decide)⟩

/-- C7: hierarchy strictness — whenever the manager's rank is not strictly
above the target's, can_manage_user is false; in particular no role can
manage itself. -/
theorem hierarchy_strictness (m t : String) :
    (hierarchy_level m ≤ hierarchy_level t → can_manage_user m t = false) ∧
    can_manage_user m m = false := by
  constructor
  · intro h
    simp only [can_manage_user, decide_eq_false_iff_not]
    omega
  · simp only [can_manage_user, decide_eq_false_iff_not]
    omega

/-- Witness for C7: administrator versus administrator (equal rank 100). -/
theorem hierarchy_strictness_witness :
    can_manage_user "admin" "admin" = false :=
  (hierarchy_strictness "admin" "admin").1 (le_refl _)

/-- C8 counterexample: "foreman" and "project_engineer" are distinct defined
roles with the SAME rank (70), so ranks are not pairwise distinct and
neither of them can manage the other — the claimed "exactly one direction"
fails. -/
theorem hierarchy_rank_tie :
    "foreman" ∈ ROLE_HIERARCHY.map Prod.fst ∧
    "project_engineer" ∈ ROLE_HIERARCHY.map Prod.fst ∧
    "foreman" ≠ "project_engineer" ∧
    hierarchy_level "foreman" = hierarchy_level "project_engineer" ∧
    can_manage_user "foreman" "project_engineer" = false ∧
    can_manage_user "project_engineer" "foreman" = false :=
  ⟨by decide, by decide, by decide, by decide, by decide, by decide⟩

/-- C8 (amended): the rank order is total but not injective on defined roles;
for any two role strings, at most one direction of can_manage_user holds, and
exactly one direction holds iff their ranks differ (equal-rank pairs — such as
foreman/project_engineer — can manage in neither direction). -/
theorem hierarchy_rank_totality (r1 r2 : String) :
    (¬ (can_manage_user r1 r2 = true ∧ can_manage_user r2 r1 = true)) ∧
    ((can_manage_user r1 r2 = true ∨ can_manage_user r2 r1 = true) ↔
      hierarchy_level r1 ≠ hierarchy_level r2) := by
  simp only [can_manage_user, decide_eq_true_eq]
  omega

/-- Witness for C8 (amended) at the pair ("admin", "field_worker"). -/
theorem hierarchy_rank_totality_witness :
    (¬ (can_manage_user "admin" "field_worker" = true ∧
        can_manage_user "field_worker" "admin" = true)) ∧
    ((can_manage_user "admin" "field_worker" = true ∨
        can_manage_user "field_worker" "admin" = true) ↔
      hierarchy_level "admin" ≠ hierarchy_level "field_worker") :=
  hierarchy_rank_totality "admin" "field_worker"

/-- C9: every failure of get_current_user — missing credential, undecodable
token (malformed or expired), or missing "sub" claim — produces the one
credentials_exception (401, "Could not validate credentials"); on success the
decoded payload itself is returned. -/
theorem unified_auth_failure (jwtDecode : String → Option Payload)
    (credentials : Option String) :
    (∀ e, get_current_user jwtDecode credentials = Except.error e →
      e = credentials_exception) ∧
    (∀ token payload, credentials = some token → jwtDecode token = some payload →
      payload.sub.isSome = true →
      get_current_user jwtDecode credentials = Except.ok payload) := by
  constructor
  · intro e he
    cases credentials with
    | none =>
      simp [get_current_user] at he
      exact he.symm
    | some token =>
      cases hd : jwtDecode token with
      | none =>
        simp [get_current_user, hd] at he
        exact he.symm
      | some payload =>
        cases hs : payload.sub with
        | none =>
          simp [get_current_user, hd, hs] at he
          exact he.symm
        | some uid =>
          simp [get_current_user, hd, hs] at he
  · intro token payload hc hd hs
    subst hc
    obtain ⟨uid, huid⟩ := Option.isSome_iff_exists.mp hs
    simp [get_current_user, hd, huid]

/-- Witness for C9: a decoder that rejects everything yields the
credentials_exception, and a decoder that accepts yields its payload. -/
theorem unified_auth_failure_witness :
    credentials_exception = credentials_exception ∧
    get_current_user (fun _ => some ⟨some 1, some "admin"⟩) (some "token") =
      Except.ok ⟨some 1, some "admin"⟩ :=
  ⟨(unified_auth_failure (fun _ => none) (some "token")).1
      credentials_exception rfl,
   (unified_auth_failure (fun _ => some ⟨some 1, some "admin"⟩) (some "token")).2
      "token" ⟨some 1, some "admin"⟩ rfl rfl rfl⟩

end OfficeBridge
